import Mathlib

/-!
Shallow embedding of the virus-host agent-based model (src/model.py).

Python floats are modelled as exact rationals, Python ints as Int.
The random module is modelled as explicit streams of values with cursors:
one stream feeds random.choice over the five move offsets, one feeds
random.random, one feeds np.random.randint; each draw reads its stream at
the cursor and advances the cursor.  The Python modulo operator on ints
is Int.fmod (result has the sign of the divisor, as in Python).
-/

/-- Explicit stream model of the random sources used by model.py. -/
structure RNG where
  choiceS : Nat → Fin 5
  unifS : Nat → Rat
  intS : Nat → Int
  ci : Nat
  ui : Nat
  ii : Nat

/-- Model of random.choice over the fixed 5-element move list: one draw. -/
def RNG.choice5 (r : RNG) : Fin 5 × RNG :=
  (r.choiceS r.ci, { r with ci := r.ci + 1 })

/-- Model of random.random(): one uniform draw, intended range [0,1). -/
def RNG.random (r : RNG) : Rat × RNG :=
  (r.unifS r.ui, { r with ui := r.ui + 1 })

/-- Model of np.random.randint(0, bound): one integer draw. -/
def RNG.randint (r : RNG) : Int × RNG :=
  (r.intS r.ii, { r with ii := r.ii + 1 })

/-- All-zero streams, used for concrete evaluations. -/
def rngZero : RNG := ⟨fun _ => 0, fun _ => 0, fun _ => 0, 0, 0, 0⟩

/-- Streams whose uniform draws are all 1, so no probability check below 1 fires. -/
def rngOne : RNG := ⟨fun _ => 0, fun _ => 1, fun _ => 0, 0, 0, 0⟩

/-- The movement offsets of model.py line 42 and 104:
random.choice([(0,1), (1,0), (0,-1), (-1,0), (0,0)]). -/
def moveChoices (c : Fin 5) : Int × Int :=
  match c.val with
  | 0 => (0, 1)
  | 1 => (1, 0)
  | 2 => (0, -1)
  | 3 => (-1, 0)
  | _ => (0, 0)

/-- The Bacteria class of model.py (fields of its constructor, lines 25-32). -/
structure Bacteria where
  group_id : Int
  growth_rate : Rat
  resistance : Rat
  biomass : Rat
  infected : Bool
  infection_time : Option Int
  x : Int
  y : Int
deriving DecidableEq

/-- Bacteria.__init__ (model.py lines 12-32): biomass starts at 1.0,
infected at False, infection_time at None. -/
def Bacteria.init (group_id : Int) (growth_rate resistance : Rat) (x y : Int) : Bacteria :=
  { group_id := group_id, growth_rate := growth_rate, resistance := resistance,
    biomass := 1, infected := false, infection_time := none, x := x, y := y }

/-- Bacteria.move (model.py lines 35-44): one random.choice draw, then both
coordinates are updated with Python modulo by the grid dimensions. -/
def Bacteria.move (b : Bacteria) (grid_size : Int × Int) (r : RNG) : Bacteria × RNG :=
  let c := r.choice5
  let d := moveChoices c.1
  ({ b with x := Int.fmod (b.x + d.1) grid_size.1,
            y := Int.fmod (b.y + d.2) grid_size.2 }, c.2)

/-- Bacteria.grow (model.py lines 46-57): if not infected, uptake is
min(growth_rate * dom_value, dom_value), biomass increases by uptake and
uptake is returned; otherwise 0 is returned and the bacterium is unchanged. -/
def Bacteria.grow (b : Bacteria) (dom_value : Rat) : Rat × Bacteria :=
  if b.infected = false then
    let uptake := min (b.growth_rate * dom_value) dom_value
    (uptake, { b with biomass := b.biomass + uptake })
  else
    (0, b)

/-- The Virus class of model.py (lines 79-93). -/
structure Virus where
  group_id : Int
  x : Int
  y : Int
deriving DecidableEq

/-- Virus.move (model.py lines 97-106), same rule as Bacteria.move. -/
def Virus.move (v : Virus) (grid_size : Int × Int) (r : RNG) : Virus × RNG :=
  let c := r.choice5
  let d := moveChoices c.1
  ({ v with x := Int.fmod (v.x + d.1) grid_size.1,
            y := Int.fmod (v.y + d.2) grid_size.2 }, c.2)

/-- Bacteria.check_if_infected (model.py lines 59-76): nothing happens (and no
draw is consumed) if already infected or the group ids differ; otherwise one
random.random draw is made and, exactly when it is below resistance, the
bacterium becomes infected with infection_time set to the current timestep. -/
def Bacteria.check_if_infected (b : Bacteria) (v : Virus) (timestep : Int) (r : RNG) :
    Bool × Bacteria × RNG :=
  if b.infected = false ∧ v.group_id = b.group_id then
    let u := r.random
    if u.1 < b.resistance then
      (true, { b with infected := true, infection_time := some timestep }, u.2)
    else
      (false, b, u.2)
  else
    (false, b, r)

/-- GRID_SIZE = (20, 20) (model.py line 8). -/
def GRID_SIZE : Nat × Nat := (20, 20)

/-- The DOM grid, indexed toroidally: ZMod coordinates give the wraparound of
both numpy wrap-mode convolution and in-range integer indexing. -/
def Grid (m n : Nat) : Type := ZMod m → ZMod n → Rat

/-- Pointwise update of one grid cell, the effect of grid[x, y] = val. -/
def updateGrid {m n : Nat} (g : Grid m n) (x y : Int) (val : Rat) : Grid m n :=
  fun i j => if i = (x : ZMod m) ∧ j = (y : ZMod n) then val else g i j

/-- DOMPool.__init__ (model.py line 115): every cell starts at 10.0. -/
def initialDom (m n : Nat) : Grid m n := fun _ _ => 10

/-- DOMPool.diffuse (model.py lines 117-123): convolution with the fixed
3x3 kernel (center 0.4, edges 0.1, corners 0.05) in wrap mode.  The kernel
is symmetric, so correlation and convolution orientation coincide. -/
def diffuse {m n : Nat} (g : Grid m n) : Grid m n := fun i j =>
  0.05 * g (i - 1) (j - 1) + 0.1 * g (i - 1) j + 0.05 * g (i - 1) (j + 1)
  + 0.1 * g i (j - 1) + 0.4 * g i j + 0.1 * g i (j + 1)
  + 0.05 * g (i + 1) (j - 1) + 0.1 * g (i + 1) j + 0.05 * g (i + 1) (j + 1)

/-- Total mass of the DOM field. -/
def gridSum (m n : Nat) [NeZero m] [NeZero n] (g : Grid m n) : Rat :=
  ∑ i, ∑ j, g i j

/-- The tunable module-level constants of model.py (lines 321-325), gathered
into a record so that claims that vary them can be stated; the source reads
them as globals. -/
structure Params where
  B_LINEAR_MORT : Rat
  B_QUADRATIC_MORT : Rat
  V_DECAY_RATE : Rat
  V_BURST_SIZE : Nat
  INFECTION_LAG : Int

/-- The default constant values of model.py lines 321-325. -/
def defaultParams : Params :=
  { B_LINEAR_MORT := 0.01, B_QUADRATIC_MORT := 0.001, V_DECAY_RATE := 0.01,
    V_BURST_SIZE := 5, INFECTION_LAG := 5 }

/-- The bacterial growth and movement loop of step (model.py lines 168-173):
for each bacterium in order, read the DOM cell at its position, grow, deduct
the returned uptake from that cell, then move. -/
def bacteriaPass (m n : Nat) : List Bacteria → Grid m n → RNG →
    List Bacteria × Grid m n × RNG
  | [], g, r => ([], g, r)
  | b :: bs, g, r =>
    let dom_value := g (b.x : ZMod m) (b.y : ZMod n)
    let gb := b.grow dom_value
    let g1 := updateGrid g b.x b.y (dom_value - gb.1)
    let mv := gb.2.move ((m : Int), (n : Int)) r
    let rest := bacteriaPass m n bs g1 mv.2
    (mv.1 :: rest.1, rest.2.1, rest.2.2)

/-- The inner loop of the virus infection pass (model.py lines 177-179): each
bacterium co-located with the virion gets a check_if_infected call. -/
def infectInner (v : Virus) (timestep : Int) : List Bacteria → RNG →
    List Bacteria × RNG
  | [], r => ([], r)
  | b :: bs, r =>
    if b.x = v.x ∧ b.y = v.y then
      let c := b.check_if_infected v timestep r
      let rest := infectInner v timestep bs c.2.2
      (c.2.1 :: rest.1, rest.2)
    else
      let rest := infectInner v timestep bs r
      (b :: rest.1, rest.2)

/-- The virus infection and movement loop of step (model.py lines 176-180):
for each virion, run the co-location infection checks over all bacteria,
then move the virion. -/
def virusPass (m n : Nat) (timestep : Int) : List Virus → List Bacteria → RNG →
    List Virus × List Bacteria × RNG
  | [], bs, r => ([], bs, r)
  | v :: vs, bs, r =>
    let inner := infectInner v timestep bs r
    let mv := v.move ((m : Int), (n : Int)) inner.2
    let rest := virusPass m n timestep vs inner.1 mv.2
    (mv.1 :: rest.1, rest.2.1, rest.2.2)

/-- Natural death probability of a bacterium (model.py line 185). -/
def mortProb (p : Params) (b : Bacteria) : Rat :=
  p.B_LINEAR_MORT + p.B_QUADRATIC_MORT * b.biomass

/-- The mortality and lysis loop of step (model.py lines 182-194):
one uniform draw per bacterium; a draw below the natural death probability
removes the bacterium with no burst; otherwise an infected bacterium past
the infection lag is removed and stages V_BURST_SIZE virions at its current
position and group id; otherwise it survives.  Returns (survivors, staged
new virions, rng).  When infected is true, infection_time was always set by
check_if_infected, so the getD default is never reached from states the
program constructs. -/
def mortalityPass (p : Params) (timestep : Int) : List Bacteria → RNG →
    List Bacteria × List Virus × RNG
  | [], r => ([], [], r)
  | b :: bs, r =>
    let u := r.random
    if u.1 < mortProb p b then
      mortalityPass p timestep bs u.2
    else if b.infected = true ∧ p.INFECTION_LAG ≤ timestep - (b.infection_time.getD 0) then
      let rest := mortalityPass p timestep bs u.2
      (rest.1, List.replicate p.V_BURST_SIZE ⟨b.group_id, b.x, b.y⟩ ++ rest.2.1, rest.2.2)
    else
      let rest := mortalityPass p timestep bs u.2
      (b :: rest.1, rest.2.1, rest.2.2)

/-- The viral decay comprehension of step (model.py line 197): one uniform
draw per pre-existing virion, kept exactly when the draw exceeds V_DECAY_RATE. -/
def decayPass (p : Params) : List Virus → RNG → List Virus × RNG
  | [], r => ([], r)
  | v :: vs, r =>
    let u := r.random
    let rest := decayPass p vs u.2
    if u.1 > p.V_DECAY_RATE then (v :: rest.1, rest.2) else rest

/-- The simulation_state dictionary of model.py lines 211-217: live agents,
the DOM pool, and the three time series. -/
structure SimState (m n : Nat) where
  bacteria : List Bacteria
  viruses : List Virus
  grid : Grid m n
  times : List Int
  bacteria_counts : List Nat
  virus_counts : List Nat

/-- step (model.py lines 155-198): diffuse, bacterial growth and movement,
virus infection and movement, mortality and lysis, viral decay, then extend
the decay survivors with the staged burst virions.  The time series fields
are untouched: the source step function never receives them. -/
def step (m n : Nat) (p : Params) (s : SimState m n) (timestep : Int) (r : RNG) :
    SimState m n × RNG :=
  let g0 := diffuse s.grid
  let pass1 := bacteriaPass m n s.bacteria g0 r
  let pass2 := virusPass m n timestep s.viruses pass1.1 pass1.2.2
  let pass3 := mortalityPass p timestep pass2.2.1 pass2.2.2
  let decayed := decayPass p pass2.1 pass3.2.2
  ({ s with bacteria := pass3.1,
            viruses := decayed.1 ++ pass3.2.1,
            grid := pass1.2.1 }, decayed.2)

/-- The state-mutating core of the per-frame update closure of
animate_simulation (model.py lines 279-308): one step call, then one append
of the frame index and the post-step population counts to the three series. -/
def updateFrame (m n : Nat) (p : Params) (s : SimState m n) (frame : Int) (r : RNG) :
    SimState m n × RNG :=
  let st := step m n p s frame r
  ({ st.1 with times := st.1.times ++ [frame],
               bacteria_counts := st.1.bacteria_counts ++ [st.1.bacteria.length],
               virus_counts := st.1.virus_counts ++ [st.1.viruses.length] }, st.2)

/-- The one kind of runtime error initialization can raise: Python integer
modulo by zero. -/
inductive PyError where
  | zeroDivisionError
deriving DecidableEq

/-- The bacteria creation loop of initialize_agents (model.py lines 140-145):
group id is i mod num_groups (ZeroDivisionError when num_groups is zero and
the loop body runs), growth_rate = 0.1 + 0.2 * (1 - group_id / num_groups),
resistance = 1 - growth_rate, then two randint draws for the position. -/
def initBacteriaLoop (num_groups : Int) : List Nat → RNG →
    Except PyError (List Bacteria × RNG)
  | [], r => .ok ([], r)
  | i :: rest, r =>
    if num_groups = 0 then .error .zeroDivisionError
    else
      let group_id := Int.fmod (i : Int) num_groups
      let growth_rate : Rat := 0.1 + 0.2 * (1 - (group_id : Rat) / (num_groups : Rat))
      let resistance : Rat := 1 - growth_rate
      let px := r.randint
      let py := px.2.randint
      match initBacteriaLoop num_groups rest py.2 with
      | .ok (bs, r3) =>
        .ok (Bacteria.init group_id growth_rate resistance px.1 py.1 :: bs, r3)
      | .error e => .error e

/-- The virus creation loop of initialize_agents (model.py lines 147-150). -/
def initVirusLoop (num_groups : Int) : List Nat → RNG →
    Except PyError (List Virus × RNG)
  | [], r => .ok ([], r)
  | i :: rest, r =>
    if num_groups = 0 then .error .zeroDivisionError
    else
      let group_id := Int.fmod (i : Int) num_groups
      let px := r.randint
      let py := px.2.randint
      match initVirusLoop num_groups rest py.2 with
      | .ok (vs, r3) => .ok (Virus.mk group_id px.1 py.1 :: vs, r3)
      | .error e => .error e

/-- initialize_agents (model.py lines 126-152): a range(n) loop is empty for
any non-positive n, so negative counts silently produce empty lists. -/
def initialize_agents (num_bacteria num_viruses num_groups : Int) (r : RNG) :
    Except PyError (List Bacteria × List Virus × RNG) :=
  (initBacteriaLoop num_groups (List.range num_bacteria.toNat) r).bind fun p =>
    (initVirusLoop num_groups (List.range num_viruses.toNat) p.2).bind fun q =>
      .ok (p.1, q.1, q.2)

/-- init_simulation (model.py lines 201-228): builds the agents, a fresh DOM
pool of 10.0 everywhere, and empty time series; performs no validation of
its arguments. -/
def init_simulation (m n : Nat) (num_bacteria num_viruses num_groups : Int) (r : RNG) :
    Except PyError (SimState m n × RNG) :=
  (initialize_agents num_bacteria num_viruses num_groups r).map fun t =>
    ({ bacteria := t.1, viruses := t.2.1, grid := initialDom m n,
       times := [], bacteria_counts := [], virus_counts := [] }, t.2.2)

/-- Boolean success test for an Except value. -/
def isOkB {e a : Type} : Except e a → Bool
  | .ok _ => true
  | .error _ => false

/-- The two spec-side passes for the refinement claim: a complete growth and
uptake pass over all bacteria (spec section 4.5 step 2), consuming no
randomness. -/
def growthUptakePass (m n : Nat) : List Bacteria → Grid m n →
    List Bacteria × Grid m n
  | [], g => ([], g)
  | b :: bs, g =>
    let dom_value := g (b.x : ZMod m) (b.y : ZMod n)
    let gb := b.grow dom_value
    let g1 := updateGrid g b.x b.y (dom_value - gb.1)
    let rest := growthUptakePass m n bs g1
    (gb.2 :: rest.1, rest.2)

/-- The complete movement pass over all bacteria (spec section 4.5 step 3),
consuming one move draw per bacterium in list order. -/
def movementPass (m n : Nat) : List Bacteria → RNG → List Bacteria × RNG
  | [], r => ([], r)
  | b :: bs, r =>
    let mv := b.move ((m : Int), (n : Int)) r
    let rest := movementPass m n bs mv.2
    (mv.1 :: rest.1, rest.2)

/-- The scenario bacterium of spec section 8: uninfected, biomass 1.0,
growth rate 0.3 (group 0 traits), resistance 0.7. -/
def scenarioB : Bacteria := Bacteria.init 0 0.3 0.7 0 0

/-- Helper: an already infected bacterium is left exactly as it was by
check_if_infected, and no draw is consumed. -/
theorem check_infected_noop (b : Bacteria) (v : Virus) (t : Int) (r : RNG)
    (h : b.infected = true) : b.check_if_infected v t r = (false, b, r) := by
  simp [Bacteria.check_if_infected, h]

/-- Helper: a group mismatch leaves the bacterium exactly as it was, with no
draw consumed. -/
theorem check_group_noop (b : Bacteria) (v : Virus) (t : Int) (r : RNG)
    (h : v.group_id ≠ b.group_id) : b.check_if_infected v t r = (false, b, r) := by
  simp [Bacteria.check_if_infected, h]

/-- C1: for every uninfected bacterium, grow returns
min(growth_rate * dom_value, dom_value) and adds exactly that uptake to the
biomass; for every infected bacterium, grow returns 0 and changes nothing;
and in the concrete scenario (biomass 1.0, growth rate 0.3, cell value 10.0)
the uptake is 3.0, the biomass becomes 4.0, and after the deduction in the
step loop the field cell holds 7.0. -/
theorem C1_grow_uptake (b : Bacteria) (dv : Rat) :
    (b.infected = false →
      (b.grow dv).1 = min (b.growth_rate * dv) dv ∧
      (b.grow dv).2.biomass = b.biomass + min (b.growth_rate * dv) dv) ∧
    (b.infected = true → (b.grow dv).1 = 0 ∧ (b.grow dv).2 = b) ∧
    ((scenarioB.grow 10).1 = 3 ∧ (scenarioB.grow 10).2.biomass = 4 ∧
      (bacteriaPass 20 20 [scenarioB] (initialDom 20 20) rngZero).2.1 0 0 = 7) := by
  refine ⟨fun h => ?_, fun h => ?_, ⟨?_, ?_, ?_⟩⟩
  · simp [Bacteria.grow, h]
  · simp [Bacteria.grow, h]
  · norm_num [scenarioB, Bacteria.init, Bacteria.grow, min_def]
  · norm_num [scenarioB, Bacteria.init, Bacteria.grow, min_def]
  · norm_num [bacteriaPass, updateGrid, initialDom, scenarioB, Bacteria.init,
      Bacteria.grow, min_def]

/-- Witness for C1 at the scenario bacterium. -/
theorem C1_grow_uptake_witness :
    scenarioB.infected = false ∧
      (scenarioB.grow 10).1 = min (scenarioB.growth_rate * 10) 10 :=
  ⟨by decide, ((C1_grow_uptake scenarioB 10).1 (by decide)).1⟩

/-- C2: check_if_infected is a no-op returning false when the bacterium is
already infected or the group ids differ; otherwise it consumes exactly one
uniform draw and infects (recording the timestep) exactly when the draw is
below resistance. -/
theorem C2_check_if_infected (b : Bacteria) (v : Virus) (t : Int) (r : RNG) :
    (b.infected = true → b.check_if_infected v t r = (false, b, r)) ∧
    (v.group_id ≠ b.group_id → b.check_if_infected v t r = (false, b, r)) ∧
    (b.infected = false → v.group_id = b.group_id →
      ((r.random).1 < b.resistance →
        b.check_if_infected v t r =
          (true, { b with infected := true, infection_time := some t }, (r.random).2)) ∧
      (¬ (r.random).1 < b.resistance →
        b.check_if_infected v t r = (false, b, (r.random).2))) := by
  refine ⟨check_infected_noop b v t r, check_group_noop b v t r, fun h1 h2 => ⟨?_, ?_⟩⟩
  · intro h3
    simp [Bacteria.check_if_infected, h1, h2, h3]
  · intro h3
    simp [Bacteria.check_if_infected, h1, h2, h3]

/-- Witness for C2: an already infected bacterium is untouched. -/
theorem C2_check_if_infected_witness :
    Bacteria.check_if_infected ⟨1, 0.2, 0.8, 1, true, some 2, 3, 4⟩ ⟨1, 3, 4⟩ 9 rngZero =
      (false, ⟨1, 0.2, 0.8, 1, true, some 2, 3, 4⟩, rngZero) :=
  (C2_check_if_infected ⟨1, 0.2, 0.8, 1, true, some 2, 3, 4⟩ ⟨1, 3, 4⟩ 9 rngZero).1 rfl

/-- Helper: composing two elementwise infection-preserving passes. -/
theorem forall2_infect_trans :
    ∀ {l1 l2 l3 : List Bacteria},
      List.Forall₂ (fun a b => a.infected = true → b = a) l1 l2 →
      List.Forall₂ (fun a b => a.infected = true → b = a) l2 l3 →
      List.Forall₂ (fun a b => a.infected = true → b = a) l1 l3 := by
  intro l1 l2 l3 h12 h23
  induction h12 generalizing l3 with
  | nil => cases h23; exact .nil
  | cons hab _ ih =>
    cases h23 with
    | cons hbc h2 =>
      refine .cons (fun ha => ?_) (ih h2)
      rw [hbc (by rw [hab ha, ha]), hab ha]

/-- Helper: the inner infection loop never touches an already infected
bacterium, elementwise over the list. -/
theorem infectInner_mono (v : Virus) (t : Int) :
    ∀ (bs : List Bacteria) (r : RNG),
      List.Forall₂ (fun a b => a.infected = true → b = a) bs (infectInner v t bs r).1 := by
  intro bs
  induction bs with
  | nil => intro r; exact .nil
  | cons b bs ih =>
    intro r
    by_cases hc : b.x = v.x ∧ b.y = v.y
    · simp only [infectInner, if_pos hc]
      refine .cons (fun hinf => ?_) (ih _)
      rw [check_infected_noop b v t r hinf]
    · simp only [infectInner, if_neg hc]
      exact .cons (fun _ => rfl) (ih r)

/-- Helper: across the whole virus pass, an infected bacterium is carried
through unchanged. -/
theorem virusPass_mono (m n : Nat) (t : Int) :
    ∀ (vs : List Virus) (bs : List Bacteria) (r : RNG),
      List.Forall₂ (fun a b => a.infected = true → b = a) bs
        (virusPass m n t vs bs r).2.1 := by
  intro vs
  induction vs with
  | nil =>
    intro bs r
    simp only [virusPass]
    exact List.forall₂_same.2 fun a _ => fun _ => rfl
  | cons v vs ih =>
    intro bs r
    simp only [virusPass]
    exact forall2_infect_trans (infectInner_mono v t bs r) (ih _ _)

/-- C7: infection is monotone.  A new bacterium starts uninfected with a null
infection_time; grow and move never touch infected or infection_time; an
already infected bacterium passes through check_if_infected completely
unchanged (so infection_time is never overwritten); an uninfected bacterium
either stays uninfected with its infection_time untouched or becomes
infected with infection_time set to the current timestep; and the whole
virus pass of step carries every infected bacterium through unchanged. -/
theorem C7_infection_monotone (gid : Int) (gr res : Rat) (x0 y0 : Int)
    (b : Bacteria) (dv : Rat) (gs : Int × Int) (r : RNG) (v : Virus) (t : Int)
    (vs : List Virus) (bs : List Bacteria) (m n : Nat) :
    ((Bacteria.init gid gr res x0 y0).infected = false ∧
      (Bacteria.init gid gr res x0 y0).infection_time = none) ∧
    ((b.grow dv).2.infected = b.infected ∧
      (b.grow dv).2.infection_time = b.infection_time) ∧
    ((b.move gs r).1.infected = b.infected ∧
      (b.move gs r).1.infection_time = b.infection_time) ∧
    (b.infected = true → b.check_if_infected v t r = (false, b, r)) ∧
    (b.infected = false →
      ((b.check_if_infected v t r).2.1.infected = false ∧
        (b.check_if_infected v t r).2.1.infection_time = b.infection_time) ∨
      ((b.check_if_infected v t r).2.1.infected = true ∧
        (b.check_if_infected v t r).2.1.infection_time = some t)) ∧
    List.Forall₂ (fun a a2 => a.infected = true → a2 = a) bs
      (virusPass m n t vs bs r).2.1 := by
  refine ⟨⟨rfl, rfl⟩, ?_, ⟨rfl, rfl⟩, check_infected_noop b v t r, ?_,
    virusPass_mono m n t vs bs r⟩
  · cases hb : b.infected <;> simp [Bacteria.grow, hb]
  · intro h1
    by_cases h2 : v.group_id = b.group_id
    · by_cases h3 : (r.random).1 < b.resistance
      · right; simp [Bacteria.check_if_infected, h1, h2, h3]
      · left; simp [Bacteria.check_if_infected, h1, h2, h3]
    · left; simp [Bacteria.check_if_infected, h1, h2]

/-- Witness for C7: an infected bacterium passes check_if_infected unchanged. -/
theorem C7_infection_monotone_witness :
    Bacteria.check_if_infected ⟨0, 0.3, 0.7, 2, true, some 1, 5, 6⟩ ⟨0, 5, 6⟩ 8 rngZero =
      (false, ⟨0, 0.3, 0.7, 2, true, some 1, 5, 6⟩, rngZero) :=
  (C7_infection_monotone 0 0 0 0 0 ⟨0, 0.3, 0.7, 2, true, some 1, 5, 6⟩ 0 (0, 0)
    rngZero ⟨0, 5, 6⟩ 8 [] [] 20 20).2.2.2.1 rfl

/-- Helper: reindexing a double sum along bijections of both axes. -/
theorem sum_comp2 {A B : Type} [Fintype A] [Fintype B] (e : A ≃ A) (f : B ≃ B)
    (g : A → B → Rat) : (∑ i, ∑ j, g (e i) (f j)) = ∑ i, ∑ j, g i j :=
  calc (∑ i, ∑ j, g (e i) (f j))
      = ∑ i, ∑ j, g (e i) j := Finset.sum_congr rfl fun i _ => Equiv.sum_comp f (g (e i))
    _ = ∑ i, ∑ j, g i j := Equiv.sum_comp e (fun a => ∑ j, g a j)

/-- C5: diffusion conserves total mass over exact arithmetic: the nine kernel
weights 0.4, four 0.1 and four 0.05 sum to 1 and every shifted copy of the
grid has the same toroidal total. -/
theorem C5_diffuse_mass (m n : Nat) [NeZero m] [NeZero n] (g : Grid m n) :
    gridSum m n (diffuse g) = gridSum m n g := by
  have h1 : (∑ i, ∑ j, g (i - 1) (j - 1)) = ∑ i, ∑ j, g i j := by
    simpa using sum_comp2 (Equiv.subRight 1) (Equiv.subRight 1) g
  have h2 : (∑ i, ∑ j, g (i - 1) j) = ∑ i, ∑ j, g i j := by
    simpa using sum_comp2 (Equiv.subRight 1) (Equiv.refl (ZMod n)) g
  have h3 : (∑ i, ∑ j, g (i - 1) (j + 1)) = ∑ i, ∑ j, g i j := by
    simpa using sum_comp2 (Equiv.subRight 1) (Equiv.addRight 1) g
  have h4 : (∑ i, ∑ j, g i (j - 1)) = ∑ i, ∑ j, g i j := by
    simpa using sum_comp2 (Equiv.refl (ZMod m)) (Equiv.subRight 1) g
  have h5 : (∑ i, ∑ j, g i (j + 1)) = ∑ i, ∑ j, g i j := by
    simpa using sum_comp2 (Equiv.refl (ZMod m)) (Equiv.addRight 1) g
  have h6 : (∑ i, ∑ j, g (i + 1) (j - 1)) = ∑ i, ∑ j, g i j := by
    simpa using sum_comp2 (Equiv.addRight 1) (Equiv.subRight 1) g
  have h7 : (∑ i, ∑ j, g (i + 1) j) = ∑ i, ∑ j, g i j := by
    simpa using sum_comp2 (Equiv.addRight 1) (Equiv.refl (ZMod n)) g
  have h8 : (∑ i, ∑ j, g (i + 1) (j + 1)) = ∑ i, ∑ j, g i j := by
    simpa using sum_comp2 (Equiv.addRight 1) (Equiv.addRight 1) g
  unfold gridSum diffuse
  simp only [Finset.sum_add_distrib, ← Finset.mul_sum]
  rw [h1, h2, h3, h4, h5, h6, h7, h8]
  ring

/-- Witness for C5 at the initial all-tens field on the 20 by 20 grid. -/
theorem C5_diffuse_mass_witness :
    gridSum 20 20 (diffuse (initialDom 20 20)) = gridSum 20 20 (initialDom 20 20) :=
  C5_diffuse_mass 20 20 (initialDom 20 20)

/-- C10: the fused bacterial loop of step (grow, deduct, move per bacterium)
equals the two separate spec passes (complete growth and uptake pass, then
complete movement pass): identical bacteria, identical field, and the same
final draw cursor against every random stream, so both orderings consume the
move draws in the same order and growth consumes none. -/
theorem C10_fused_loop_equiv (m n : Nat) (bs : List Bacteria) (g : Grid m n) (r : RNG) :
    bacteriaPass m n bs g r =
      ((movementPass m n (growthUptakePass m n bs g).1 r).1,
       (growthUptakePass m n bs g).2,
       (movementPass m n (growthUptakePass m n bs g).1 r).2) := by
  induction bs generalizing g r with
  | nil => rfl
  | cons b bs ih =>
    simp only [bacteriaPass, growthUptakePass, movementPass]
    rw [ih]

/-- Witness for C10 on a concrete one-bacterium state. -/
theorem C10_fused_loop_equiv_witness :
    bacteriaPass 20 20 [scenarioB] (initialDom 20 20) rngZero =
      ((movementPass 20 20 (growthUptakePass 20 20 [scenarioB] (initialDom 20 20)).1 rngZero).1,
       (growthUptakePass 20 20 [scenarioB] (initialDom 20 20)).2,
       (movementPass 20 20 (growthUptakePass 20 20 [scenarioB] (initialDom 20 20)).1 rngZero).2) :=
  C10_fused_loop_equiv 20 20 [scenarioB] (initialDom 20 20) rngZero

/-- Helper: returned uptake never exceeds the available cell value. -/
theorem grow_fst_le (b : Bacteria) (dv : Rat) (h : 0 ≤ dv) : (b.grow dv).1 ≤ dv := by
  by_cases hb : b.infected = false
  · simp only [Bacteria.grow, if_pos hb]
    exact min_le_right _ _
  · simp only [Bacteria.grow, if_neg hb]
    exact h

/-- Helper: diffusion with the non-negative kernel preserves non-negativity. -/
theorem diffuse_nonneg {m n : Nat} (g : Grid m n) (hg : ∀ i j, 0 ≤ g i j) :
    ∀ i j, 0 ≤ diffuse g i j := by
  intro i j
  unfold diffuse
  repeat' apply add_nonneg
  all_goals exact mul_nonneg (by norm_num) (hg _ _)

/-- Helper: the growth and uptake loop keeps every cell non-negative, since
each deduction is clamped to the value currently in the cell. -/
theorem bacteriaPass_grid_nonneg (m n : Nat) :
    ∀ (bs : List Bacteria) (g : Grid m n) (r : RNG), (∀ i j, 0 ≤ g i j) →
      ∀ i j, 0 ≤ (bacteriaPass m n bs g r).2.1 i j := by
  intro bs
  induction bs with
  | nil => intro g r hg i j; exact hg i j
  | cons b bs ih =>
    intro g r hg
    simp only [bacteriaPass]
    apply ih
    intro i j
    unfold updateGrid
    by_cases hij : i = (b.x : ZMod m) ∧ j = (b.y : ZMod n)
    · rw [if_pos hij]
      have hle := grow_fst_le b (g (b.x : ZMod m) (b.y : ZMod n)) (hg _ _)
      linarith
    · rw [if_neg hij]
      exact hg i j

/-- C6: non-negativity of the resource field is an invariant of step: the
diffusion kernel is non-negative and each uptake min(growth_rate * v, v) is
at most the value v currently in the cell, so the deduction never drives a
cell negative; no other pass touches the grid. -/
theorem C6_grid_nonneg_invariant (m n : Nat) (p : Params) (s : SimState m n)
    (t : Int) (r : RNG) (hg : ∀ i j, 0 ≤ s.grid i j) :
    ∀ i j, 0 ≤ (step m n p s t r).1.grid i j := by
  intro i j
  exact bacteriaPass_grid_nonneg m n s.bacteria (diffuse s.grid) r
    (diffuse_nonneg s.grid hg) i j

/-- A concrete simulation state used for witnesses: one scenario bacterium,
one matching virion, the initial field. -/
def s0 : SimState 20 20 :=
  { bacteria := [scenarioB], viruses := [⟨0, 0, 0⟩], grid := initialDom 20 20,
    times := [], bacteria_counts := [], virus_counts := [] }

/-- Witness for C6 at the concrete state s0. -/
theorem C6_grid_nonneg_invariant_witness :
    0 ≤ (step 20 20 defaultParams s0 0 rngZero).1.grid 0 0 :=
  C6_grid_nonneg_invariant 20 20 defaultParams s0 0 rngZero
    (fun _ _ => by norm_num [s0, initialDom]) 0 0

/-- C8 counterexample: at the concrete state s0 a call to step leaves the
times series empty, so it does not append an entry as the claim states. -/
theorem C8_step_timeseries_counterexample :
    ¬ ((step 20 20 defaultParams s0 0 rngZero).1.times.length =
        s0.times.length + 1) := by
  intro h
  have h0 : (step 20 20 defaultParams s0 0 rngZero).1.times = s0.times := rfl
  rw [h0] at h
  omega

/-- C8 (amended): step itself leaves all three time series unchanged (the
source step function never receives them); the appending is done by the
per-frame update function, which calls step once and then appends exactly
one entry (the frame index and the post-step counts) to each series, so
after n frames each series has n entries. -/
theorem C8_step_timeseries (m n : Nat) (p : Params) (s : SimState m n)
    (t : Int) (r : RNG) :
    ((step m n p s t r).1.times = s.times ∧
     (step m n p s t r).1.bacteria_counts = s.bacteria_counts ∧
     (step m n p s t r).1.virus_counts = s.virus_counts) ∧
    ((updateFrame m n p s t r).1.times.length = s.times.length + 1 ∧
     (updateFrame m n p s t r).1.bacteria_counts.length = s.bacteria_counts.length + 1 ∧
     (updateFrame m n p s t r).1.virus_counts.length = s.virus_counts.length + 1) := by
  have h1 : (step m n p s t r).1.times = s.times := rfl
  have h2 : (step m n p s t r).1.bacteria_counts = s.bacteria_counts := rfl
  have h3 : (step m n p s t r).1.virus_counts = s.virus_counts := rfl
  refine ⟨⟨h1, h2, h3⟩, ?_, ?_, ?_⟩ <;>
    simp [updateFrame, h1, h2, h3]

/-- Helper: the bacteria creation loop succeeds whenever num_groups is not
zero. -/
theorem initBacteriaLoop_ok (ng : Int) (hng : ng ≠ 0) :
    ∀ (l : List Nat) (r : RNG), isOkB (initBacteriaLoop ng l r) = true := by
  intro l
  induction l with
  | nil => intro r; rfl
  | cons i rest ih =>
    intro r
    simp only [initBacteriaLoop, if_neg hng]
    cases h : initBacteriaLoop ng rest ((r.randint).2.randint).2 with
    | ok x =>
      obtain ⟨bs, r3⟩ := x
      rfl
    | error e =>
      have hok := ih ((r.randint).2.randint).2
      rw [h] at hok
      exact absurd hok (by simp [isOkB])

/-- Helper: the virus creation loop succeeds whenever num_groups is not zero. -/
theorem initVirusLoop_ok (ng : Int) (hng : ng ≠ 0) :
    ∀ (l : List Nat) (r : RNG), isOkB (initVirusLoop ng l r) = true := by
  intro l
  induction l with
  | nil => intro r; rfl
  | cons i rest ih =>
    intro r
    simp only [initVirusLoop, if_neg hng]
    cases h : initVirusLoop ng rest ((r.randint).2.randint).2 with
    | ok x =>
      obtain ⟨vs, r3⟩ := x
      rfl
    | error e =>
      have hok := ih ((r.randint).2.randint).2
      rw [h] at hok
      exact absurd hok (by simp [isOkB])

/-- Helper: bind on a success reduces. -/
theorem except_bind_ok {E A B : Type} (a : A) (f : A → Except E B) :
    (Except.ok a : Except E A).bind f = f a := rfl

/-- Helper: bind on an error propagates the error. -/
theorem except_bind_error {E A B : Type} (e : E) (f : A → Except E B) :
    (Except.error e : Except E A).bind f = Except.error e := rfl

/-- Helper: map on an error propagates the error. -/
theorem except_map_error {E A B : Type} (e : E) (f : A → B) :
    (Except.error e : Except E A).map f = Except.error e := rfl

/-- C9 counterexample: with a negative bacteria count, a negative virus count
and numGroups = -3 (so numGroups at most 0), initialization succeeds and a
state is produced: no error of any kind is raised. -/
theorem C9_init_validation_counterexample :
    isOkB (init_simulation 20 20 (-1) (-1) (-3) rngZero) = true := rfl

/-- C9 (amended): initialization performs no validation.  For every argument
choice with numGroups nonzero (including negative counts, which give empty
populations, and negative numGroups) it succeeds and produces a state; the
only initialization failure is a ZeroDivisionError from the modulo when
numGroups = 0 and a positive count makes the loop body run, and that error
is not an InvalidConfiguration check. -/
theorem C9_init_validation (m n : Nat) (nb nv ng nb2 nv2 : Int) (r r2 : RNG)
    (hng : ng ≠ 0) (hnb2 : 0 < nb2) :
    isOkB (init_simulation m n nb nv ng r) = true ∧
    init_simulation m n nb2 nv2 0 r2 = .error PyError.zeroDivisionError := by
  constructor
  · unfold init_simulation initialize_agents
    cases hb : initBacteriaLoop ng (List.range nb.toNat) r with
    | error e =>
      have hok := initBacteriaLoop_ok ng hng (List.range nb.toNat) r
      rw [hb] at hok
      exact absurd hok (by simp [isOkB])
    | ok x =>
      rw [except_bind_ok]
      cases hv : initVirusLoop ng (List.range nv.toNat) x.2 with
      | error e =>
        have hok := initVirusLoop_ok ng hng (List.range nv.toNat) x.2
        rw [hv] at hok
        exact absurd hok (by simp [isOkB])
      | ok y =>
        rw [except_bind_ok]
        rfl
  · obtain ⟨k, hk⟩ : ∃ k, nb2.toNat = k + 1 := ⟨nb2.toNat - 1, by omega⟩
    unfold init_simulation initialize_agents
    rw [hk, List.range_succ_eq_map]
    simp only [initBacteriaLoop, if_pos rfl, if_true, except_bind_error, except_map_error]

/-- Witness for C9 (amended) at concrete arguments. -/
theorem C9_init_validation_witness :
    isOkB (init_simulation 20 20 2 1 1 rngZero) = true ∧
    init_simulation 20 20 1 0 0 rngZero = .error PyError.zeroDivisionError :=
  C9_init_validation 20 20 2 1 1 1 0 rngZero rngZero (by decide) (by decide)

/-- Helper: the bacterial pass never changes the uniform stream function,
only cursors advance. -/
theorem bacteriaPass_unifS (m n : Nat) :
    ∀ (bs : List Bacteria) (g : Grid m n) (r : RNG),
      (bacteriaPass m n bs g r).2.2.unifS = r.unifS := by
  intro bs
  induction bs with
  | nil => intro g r; rfl
  | cons b bs ih =>
    intro g r
    simp only [bacteriaPass]
    rw [ih]
    rfl

/-- Helper: check_if_infected never changes the uniform stream function. -/
theorem check_unifS (b : Bacteria) (v : Virus) (t : Int) (r : RNG) :
    (b.check_if_infected v t r).2.2.unifS = r.unifS := by
  unfold Bacteria.check_if_infected
  by_cases h : b.infected = false ∧ v.group_id = b.group_id
  · rw [if_pos h]
    by_cases h2 : (r.random).1 < b.resistance
    · rw [if_pos h2]
      rfl
    · rw [if_neg h2]
      rfl
  · rw [if_neg h]

/-- Helper: the inner infection loop never changes the uniform stream. -/
theorem infectInner_unifS (v : Virus) (t : Int) :
    ∀ (bs : List Bacteria) (r : RNG), (infectInner v t bs r).2.unifS = r.unifS := by
  intro bs
  induction bs with
  | nil => intro r; rfl
  | cons b bs ih =>
    intro r
    by_cases hc : b.x = v.x ∧ b.y = v.y
    · simp only [infectInner, if_pos hc]
      rw [ih, check_unifS]
    · simp only [infectInner, if_neg hc]
      rw [ih]

/-- Helper: the virus pass never changes the uniform stream function. -/
theorem virusPass_unifS (m n : Nat) (t : Int) :
    ∀ (vs : List Virus) (bs : List Bacteria) (r : RNG),
      (virusPass m n t vs bs r).2.2.unifS = r.unifS := by
  intro vs
  induction vs with
  | nil => intro bs r; rfl
  | cons v vs ih =>
    intro bs r
    simp only [virusPass]
    rw [ih]
    exact infectInner_unifS v t bs r

/-- Helper: grow adds the returned uptake to the biomass in both branches. -/
theorem grow_biomass_eq (b : Bacteria) (dv : Rat) :
    (b.grow dv).2.biomass = b.biomass + (b.grow dv).1 := by
  by_cases hb : b.infected = false
  · simp only [Bacteria.grow, if_pos hb]
  · simp only [Bacteria.grow, if_neg hb]
    exact (add_zero b.biomass).symm

/-- Helper: with a non-negative cell and growth rate, uptake is non-negative. -/
theorem grow_fst_nonneg (b : Bacteria) (dv : Rat) (hdv : 0 ≤ dv)
    (hgr : 0 ≤ b.growth_rate) : 0 ≤ (b.grow dv).1 := by
  by_cases hb : b.infected = false
  · simp only [Bacteria.grow, if_pos hb]
    exact le_min (mul_nonneg hgr hdv) hdv
  · simp only [Bacteria.grow, if_neg hb]
    exact le_refl 0

/-- Helper: the bacterial pass keeps every biomass non-negative when the grid
and all growth rates are non-negative. -/
theorem bacteriaPass_biomass (m n : Nat) :
    ∀ (bs : List Bacteria) (g : Grid m n) (r : RNG), (∀ i j, 0 ≤ g i j) →
      (∀ b ∈ bs, 0 ≤ b.biomass ∧ 0 ≤ b.growth_rate) →
      ∀ a ∈ (bacteriaPass m n bs g r).1, 0 ≤ a.biomass := by
  intro bs
  induction bs with
  | nil => intro g r _ _ a ha; simp [bacteriaPass] at ha
  | cons b bs ih =>
    intro g r hg hb a ha
    simp only [bacteriaPass, List.mem_cons] at ha
    rcases ha with ha | ha
    · subst ha
      have hbb := hb b (List.mem_cons_self b bs)
      show 0 ≤ (b.grow (g (b.x : ZMod m) (b.y : ZMod n))).2.biomass
      rw [grow_biomass_eq]
      have hup := grow_fst_nonneg b (g (b.x : ZMod m) (b.y : ZMod n)) (hg _ _) hbb.2
      linarith [hbb.1]
    · refine ih _ _ ?_ (fun c hc => hb c (List.mem_cons_of_mem b hc)) a ha
      intro i j
      unfold updateGrid
      by_cases hij : i = (b.x : ZMod m) ∧ j = (b.y : ZMod n)
      · rw [if_pos hij]
        have hle := grow_fst_le b (g (b.x : ZMod m) (b.y : ZMod n)) (hg _ _)
        linarith
      · rw [if_neg hij]
        exact hg i j

/-- Helper: check_if_infected never changes the biomass. -/
theorem check_biomass (b : Bacteria) (v : Virus) (t : Int) (r : RNG) :
    (b.check_if_infected v t r).2.1.biomass = b.biomass := by
  unfold Bacteria.check_if_infected
  by_cases h : b.infected = false ∧ v.group_id = b.group_id
  · rw [if_pos h]
    by_cases h2 : (r.random).1 < b.resistance
    · rw [if_pos h2]
    · rw [if_neg h2]
  · rw [if_neg h]

/-- Helper: the inner infection loop keeps biomasses non-negative. -/
theorem infectInner_biomass (v : Virus) (t : Int) :
    ∀ (bs : List Bacteria) (r : RNG), (∀ b ∈ bs, 0 ≤ b.biomass) →
      ∀ a ∈ (infectInner v t bs r).1, 0 ≤ a.biomass := by
  intro bs
  induction bs with
  | nil => intro r _ a ha; simp [infectInner] at ha
  | cons b bs ih =>
    intro r hb a ha
    by_cases hc : b.x = v.x ∧ b.y = v.y
    · simp only [infectInner, if_pos hc, List.mem_cons] at ha
      rcases ha with ha | ha
      · subst ha
        rw [check_biomass]
        exact hb b (List.mem_cons_self b bs)
      · exact ih _ (fun c hc2 => hb c (List.mem_cons_of_mem b hc2)) a ha
    · simp only [infectInner, if_neg hc, List.mem_cons] at ha
      rcases ha with ha | ha
      · rw [ha]
        exact hb b (List.mem_cons_self b bs)
      · exact ih _ (fun c hc2 => hb c (List.mem_cons_of_mem b hc2)) a ha

/-- Helper: the virus pass keeps biomasses non-negative. -/
theorem virusPass_biomass (m n : Nat) (t : Int) :
    ∀ (vs : List Virus) (bs : List Bacteria) (r : RNG), (∀ b ∈ bs, 0 ≤ b.biomass) →
      ∀ a ∈ (virusPass m n t vs bs r).2.1, 0 ≤ a.biomass := by
  intro vs
  induction vs with
  | nil => intro bs r hb; exact hb
  | cons v vs ih =>
    intro bs r hb
    simp only [virusPass]
    exact ih _ _ (infectInner_biomass v t bs r hb)

/-- Helper: when the linear mortality is 1, the quadratic term non-negative,
biomasses non-negative and all uniform draws below 1, every bacterium dies
in the mortality pass and no burst is staged. -/
theorem mortalityPass_all_die (p : Params) (t : Int) (hp : p.B_LINEAR_MORT = 1)
    (hq : 0 ≤ p.B_QUADRATIC_MORT) :
    ∀ (bs : List Bacteria) (r : RNG), (∀ b ∈ bs, 0 ≤ b.biomass) →
      (∀ k, 0 ≤ r.unifS k ∧ r.unifS k < 1) →
      (mortalityPass p t bs r).1 = [] ∧ (mortalityPass p t bs r).2.1 = [] := by
  intro bs
  induction bs with
  | nil => intro r _ _; exact ⟨rfl, rfl⟩
  | cons b bs ih =>
    intro r hb hr
    have hdie : (r.random).1 < mortProb p b := by
      have h1 := (hr r.ui).2
      have h2 : 0 ≤ p.B_QUADRATIC_MORT * b.biomass :=
        mul_nonneg hq (hb b (List.mem_cons_self b bs))
      unfold mortProb
      rw [hp]
      show r.unifS r.ui < 1 + p.B_QUADRATIC_MORT * b.biomass
      linarith
    simp only [mortalityPass, if_pos hdie]
    exact ih _ (fun c hc => hb c (List.mem_cons_of_mem b hc)) (fun k => hr k)

/-- Helper: the decay pass returns a sublist of the pre-existing virions. -/
theorem decayPass_sublist (p : Params) :
    ∀ (vs : List Virus) (r : RNG), ((decayPass p vs r).1).Sublist vs := by
  intro vs
  induction vs with
  | nil => intro r; exact List.Sublist.refl []
  | cons v vs ih =>
    intro r
    simp only [decayPass]
    by_cases h : (r.random).1 > p.V_DECAY_RATE
    · rw [if_pos h]
      exact List.Sublist.cons₂ v (ih _)
    · rw [if_neg h]
      exact List.Sublist.cons v (ih _)

/-- Helper: the virus pass moves each virion once, preserving the count. -/
theorem virusPass_fst_length (m n : Nat) (t : Int) :
    ∀ (vs : List Virus) (bs : List Bacteria) (r : RNG),
      (virusPass m n t vs bs r).1.length = vs.length := by
  intro vs
  induction vs with
  | nil => intro bs r; rfl
  | cons v vs ih =>
    intro bs r
    simp only [virusPass, List.length_cons]
    rw [ih]

/-- C3: in the mortality and lysis pass, a successful natural-death draw
removes the bacterium before the lysis condition is even examined, so no
burst is spawned regardless of infection state; and with B_LINEAR_MORT
forced to 1 (quadratic term non-negative, biomasses, growth rates and grid
non-negative, uniform draws in [0,1)), one step empties the bacterial
population and creates no burst virions, so the viral count cannot grow. -/
theorem C3_mortality_precedence (m n : Nat) (p p2 : Params) (t : Int) (b : Bacteria)
    (bs : List Bacteria) (r : RNG) (s : SimState m n) (r2 : RNG)
    (hdie : (r.random).1 < mortProb p b)
    (hu : ∀ k, 0 ≤ r2.unifS k ∧ r2.unifS k < 1)
    (hb : ∀ a ∈ s.bacteria, 0 ≤ a.biomass ∧ 0 ≤ a.growth_rate)
    (hg : ∀ i j, 0 ≤ s.grid i j)
    (hp : p2.B_LINEAR_MORT = 1) (hq : 0 ≤ p2.B_QUADRATIC_MORT) :
    mortalityPass p t (b :: bs) r = mortalityPass p t bs (r.random).2 ∧
    ((step m n p2 s t r2).1.bacteria = [] ∧
      (step m n p2 s t r2).1.viruses.length ≤ s.viruses.length) := by
  constructor
  · simp only [mortalityPass, if_pos hdie]
  · have hgd := diffuse_nonneg s.grid hg
    have hb1 : ∀ a ∈ (bacteriaPass m n s.bacteria (diffuse s.grid) r2).1, 0 ≤ a.biomass :=
      bacteriaPass_biomass m n s.bacteria (diffuse s.grid) r2 hgd hb
    have hb2 : ∀ a ∈ (virusPass m n t s.viruses
        (bacteriaPass m n s.bacteria (diffuse s.grid) r2).1
        (bacteriaPass m n s.bacteria (diffuse s.grid) r2).2.2).2.1, 0 ≤ a.biomass :=
      virusPass_biomass m n t s.viruses _ _ hb1
    have hustream : (virusPass m n t s.viruses
        (bacteriaPass m n s.bacteria (diffuse s.grid) r2).1
        (bacteriaPass m n s.bacteria (diffuse s.grid) r2).2.2).2.2.unifS = r2.unifS := by
      rw [virusPass_unifS, bacteriaPass_unifS]
    have hmort := mortalityPass_all_die p2 t hp hq
      (virusPass m n t s.viruses
        (bacteriaPass m n s.bacteria (diffuse s.grid) r2).1
        (bacteriaPass m n s.bacteria (diffuse s.grid) r2).2.2).2.1
      (virusPass m n t s.viruses
        (bacteriaPass m n s.bacteria (diffuse s.grid) r2).1
        (bacteriaPass m n s.bacteria (diffuse s.grid) r2).2.2).2.2
      hb2 (by intro k; rw [hustream]; exact hu k)
    constructor
    · exact hmort.1
    · show ((decayPass p2 (virusPass m n t s.viruses
          (bacteriaPass m n s.bacteria (diffuse s.grid) r2).1
          (bacteriaPass m n s.bacteria (diffuse s.grid) r2).2.2).1
          (mortalityPass p2 t _ _).2.2).1 ++
          (mortalityPass p2 t (virusPass m n t s.viruses
            (bacteriaPass m n s.bacteria (diffuse s.grid) r2).1
            (bacteriaPass m n s.bacteria (diffuse s.grid) r2).2.2).2.1
            (virusPass m n t s.viruses
              (bacteriaPass m n s.bacteria (diffuse s.grid) r2).1
              (bacteriaPass m n s.bacteria (diffuse s.grid) r2).2.2).2.2).2.1).length ≤
        s.viruses.length
      rw [hmort.2, List.append_nil]
      calc ((decayPass p2 (virusPass m n t s.viruses
              (bacteriaPass m n s.bacteria (diffuse s.grid) r2).1
              (bacteriaPass m n s.bacteria (diffuse s.grid) r2).2.2).1
              (mortalityPass p2 t _ _).2.2).1).length
          ≤ ((virusPass m n t s.viruses
              (bacteriaPass m n s.bacteria (diffuse s.grid) r2).1
              (bacteriaPass m n s.bacteria (diffuse s.grid) r2).2.2).1).length :=
            List.Sublist.length_le (decayPass_sublist p2 _ _)
        _ = s.viruses.length := virusPass_fst_length m n t s.viruses _ _

/-- Parameter record with the forced linear mortality of the C3 scenario. -/
def allDieParams : Params := { defaultParams with B_LINEAR_MORT := 1 }

/-- Witness for C3 at concrete inputs. -/
theorem C3_mortality_precedence_witness :
    mortalityPass defaultParams 0 [scenarioB] rngZero =
        mortalityPass defaultParams 0 [] (rngZero.random).2 ∧
    ((step 20 20 allDieParams s0 0 rngZero).1.bacteria = [] ∧
      (step 20 20 allDieParams s0 0 rngZero).1.viruses.length ≤ s0.viruses.length) :=
  C3_mortality_precedence 20 20 defaultParams allDieParams 0 scenarioB [] rngZero s0 rngZero
    (by norm_num [RNG.random, rngZero, mortProb, defaultParams, scenarioB, Bacteria.init])
    (by intro k; norm_num [rngZero])
    (by
      intro a ha
      simp only [s0, List.mem_singleton] at ha
      rw [ha]
      norm_num [scenarioB, Bacteria.init])
    (fun i j => by norm_num [s0, initialDom])
    rfl (by norm_num [allDieParams, defaultParams])

/-- C4: a bacterium that survives its natural-death draw, is infected, and is
past the infection lag at timestep t is removed and stages exactly
V_BURST_SIZE virions with its group id and current position; the decay pass
filters only the pre-existing virions (its output is a sublist of them) and
never sees the staged list; and the next viral population of step is exactly
the decay survivors followed by the staged burst virions. -/
theorem C4_lysis_burst (m n : Nat) (p : Params) (t t0 : Int) (b : Bacteria)
    (bs : List Bacteria) (r : RNG) (s : SimState m n) (r2 : RNG)
    (hsurv : ¬ (r.random).1 < mortProb p b)
    (hinf : b.infected = true) (ht0 : b.infection_time = some t0)
    (hlag : p.INFECTION_LAG ≤ t - t0) :
    (mortalityPass p t (b :: bs) r =
      ((mortalityPass p t bs (r.random).2).1,
       List.replicate p.V_BURST_SIZE ⟨b.group_id, b.x, b.y⟩ ++
         (mortalityPass p t bs (r.random).2).2.1,
       (mortalityPass p t bs (r.random).2).2.2)) ∧
    (∀ (vs : List Virus) (rr : RNG), ((decayPass p vs rr).1).Sublist vs) ∧
    (let pass1 := bacteriaPass m n s.bacteria (diffuse s.grid) r2
     let pass2 := virusPass m n t s.viruses pass1.1 pass1.2.2
     let pass3 := mortalityPass p t pass2.2.1 pass2.2.2
     (step m n p s t r2).1.viruses = (decayPass p pass2.1 pass3.2.2).1 ++ pass3.2.1) := by
  refine ⟨?_, decayPass_sublist p, rfl⟩
  have hc : b.infected = true ∧ p.INFECTION_LAG ≤ t - (b.infection_time.getD 0) := by
    rw [ht0]
    exact ⟨hinf, hlag⟩
  simp only [mortalityPass, if_neg hsurv, if_pos hc]

/-- A concrete infected bacterium past the default infection lag at t = 5. -/
def bInfected : Bacteria := ⟨0, 0.3, 0.7, 1, true, some 0, 2, 3⟩

/-- Witness for C4 at concrete inputs. -/
theorem C4_lysis_burst_witness :
    mortalityPass defaultParams 5 [bInfected] rngOne =
      ((mortalityPass defaultParams 5 [] (rngOne.random).2).1,
       List.replicate defaultParams.V_BURST_SIZE
         ⟨bInfected.group_id, bInfected.x, bInfected.y⟩ ++
         (mortalityPass defaultParams 5 [] (rngOne.random).2).2.1,
       (mortalityPass defaultParams 5 [] (rngOne.random).2).2.2) :=
  (C4_lysis_burst 20 20 defaultParams 5 0 bInfected [] rngOne s0 rngZero
    (by norm_num [RNG.random, rngOne, mortProb, defaultParams, bInfected])
    rfl rfl (by norm_num [defaultParams])).1
